import Mathlib

/-!
Verification of the presence-tracked message dispatch core of a Node.js
messenger server (Express + socket.io + SQL store).

The repository holds near-duplicate snapshots of one server file; the
embedding below follows the latest snapshot (the second half of
`server.js`): the `login` / `send_message` / `disconnect` socket handlers,
the `GET /messages` history route and the `POST /friends/request` route.

Modelling choices, each tied to a source construct:
- JavaScript values reaching the handlers are modelled by `JSValue`
  (undefined, null, integer numbers, strings); `falsy` is JS truthiness
  restricted to these, and `toNumber` is the `Number(x)` coercion the
  handlers apply (`NumV.nan` stands for the IEEE NaN result on
  non-numeric strings).
- The in-memory `onlineUsers` object is an insertion-ordered association
  list `Registry` with unique keys, exactly a JS object's key/value set.
  `bindReg` is `onlineUsers[uid] = socket.id` (overwrite in place or
  append), `lookupReg` is `onlineUsers[uid]`, and `disconnectHandler` is
  the `for (let id in onlineUsers) { if (=== socket.id) { delete; break } }`
  scan.  None of the proved properties depends on the for-in enumeration
  order.
- The `send_message` handler body runs inside `try { await INSERT; push }
  catch { log }`.  The durable store's verdict on the INSERT is external
  input, passed as the boolean `ok`; the handler's observable behaviour is
  returned as the updated message table plus an ordered effect trace
  (`Effect.dbInsert` = the store call with its outcome, `Effect.emit` = a
  `receive_message` push to one socket).  The handler returns nothing to
  the sender, so the trace and the table are its only outputs.
- Timestamps are a server-supplied `now : Nat` (`created_at DEFAULT
  CURRENT_TIMESTAMP`).
-/

namespace Messenger

/-- A JavaScript value as it reaches the socket/route handlers.  Numbers are
modelled by integers (every id in the protocol is integral). -/
inductive JSValue where
  | vundef : JSValue
  | vnull : JSValue
  | vnum (n : Int) : JSValue
  | vstr (s : String) : JSValue
deriving DecidableEq, Repr

/-- JS truthiness test for the modelled values: `undefined`, `null`, `0` and
`""` are falsy (`if (!userId) return;` in the login handler). -/
def falsy : JSValue → Bool
  | .vundef => true
  | .vnull => true
  | .vnum n => n == 0
  | .vstr s => s == ""

/-- Result of the JS `Number(x)` coercion: an integer or NaN. -/
inductive NumV where
  | int (n : Int) : NumV
  | nan : NumV
deriving DecidableEq, Repr

/-- The `Number(x)` coercion as used on ids: `Number(null) = 0`,
`Number("") = 0`, numeric strings parse, other strings give NaN,
`Number(undefined)` is NaN. -/
def toNumber : JSValue → NumV
  | .vundef => .nan
  | .vnull => .int 0
  | .vnum n => .int n
  | .vstr s => if s = "" then .int 0 else
      match s.toInt? with
      | some n => .int n
      | none => .nan

/-- A live connection handle (socket id), abstract. -/
abbrev SocketId := Nat

/-- The `onlineUsers` object: user id (after `Number` coercion) to socket id,
in insertion order, keys unique (it is a JS object). -/
abbrev Registry := List (NumV × SocketId)

/-- `onlineUsers[uid] = socket.id`: overwrite the entry for `uid` in place if
present, otherwise append a new entry (JS object assignment). -/
def bindReg (uid : NumV) (sid : SocketId) : Registry → Registry
  | [] => [(uid, sid)]
  | (k, v) :: rest =>
      if uid = k then (uid, sid) :: rest else (k, v) :: bindReg uid sid rest

/-- `onlineUsers[uid]`: the socket currently bound to `uid`, if any. -/
def lookupReg (uid : NumV) : Registry → Option SocketId
  | [] => none
  | (k, v) :: rest => if uid = k then some v else lookupReg uid rest

/-- The `login` socket handler: `if (!userId) return;` then
`onlineUsers[Number(userId)] = socket.id`. -/
def loginHandler (userId : JSValue) (sid : SocketId) (reg : Registry) : Registry :=
  if falsy userId then reg else bindReg (toNumber userId) sid reg

/-- The `disconnect` socket handler: scan `onlineUsers`, delete the first
entry whose value equals the disconnecting socket's id, then `break`. -/
def disconnectHandler (sid : SocketId) : Registry → Registry
  | [] => []
  | (k, v) :: rest =>
      if v = sid then rest else (k, v) :: disconnectHandler sid rest

/-- A row of the `messages` table: `(sender_id, receiver_id, text,
created_at)`; ids are the `Number`-coerced payload fields. -/
structure MsgRow where
  sender_id : NumV
  receiver_id : NumV
  text : String
  created_at : Nat
deriving DecidableEq, Repr

/-- One observable effect of the `send_message` handler, in order:
the store call (`INSERT INTO messages ...`, with the store's verdict) or a
`receive_message` push to one socket with payload `{from, text}`. -/
inductive Effect where
  | dbInsert (sender receiver : NumV) (text : String) (ok : Bool) : Effect
  | emit (target : SocketId) (fromId : NumV) (text : String) : Effect
deriving DecidableEq, Repr

/-- Whether an effect is a live push. -/
def Effect.isEmit : Effect → Bool
  | .emit _ _ _ => true
  | _ => false

/-- The `send_message` socket handler:
`const to = Number(toUserId); const from = Number(fromUserId);`
then inside `try`: `await INSERT INTO messages`, then
`if (onlineUsers[to]) io.to(onlineUsers[to]).emit('receive_message', {from, text})`;
a store failure (`ok = false`) throws into the `catch`, which only logs,
so nothing after the insert runs.  Returns the updated `messages` table and
the ordered effect trace; nothing is returned or emitted to the sender. -/
def sendMessageHandler (ok : Bool) (fromUserId toUserId : JSValue) (text : String)
    (now : Nat) (store : List MsgRow) (reg : Registry) :
    List MsgRow × List Effect :=
  let fromN := toNumber fromUserId
  let toN := toNumber toUserId
  if ok then
    let store1 := store ++ [⟨fromN, toN, text, now⟩]
    match lookupReg toN reg with
    | some sid => (store1, [.dbInsert fromN toN text true, .emit sid fromN text])
    | none => (store1, [.dbInsert fromN toN text true])
  else (store, [.dbInsert fromN toN text false])

/-- Derived observable: was the message pushed live to anyone? -/
def deliveredFlag (effs : List Effect) : Bool :=
  effs.any Effect.isEmit

/-- Derived observable: did the store accept the insert? -/
def persistedFlag (effs : List Effect) : Bool :=
  effs.any fun e =>
    match e with
    | .dbInsert _ _ _ ok => ok
    | _ => false

/-- Whether some effect in the trace pushes an event to socket `sock`. -/
def emitsTo (sock : SocketId) (effs : List Effect) : Bool :=
  effs.any fun e =>
    match e with
    | .emit target _ _ => target = sock
    | _ => false

/-- A row of the `friends` table: `(user_id, friend_id, status)` with
`UNIQUE(user_id, friend_id)` and `status DEFAULT 'pending'`. -/
structure FriendEdge where
  user_id : NumV
  friend_id : NumV
  status : String
deriving DecidableEq, Repr

/-- Outcome of `POST /friends/request`: the new table on success, or the 400
response produced by the `catch` when the INSERT violates
`UNIQUE(user_id, friend_id)`. -/
inductive FriendReqResult where
  | ok (friendsAfter : List FriendEdge) : FriendReqResult
  | duplicateErr : FriendReqResult
deriving DecidableEq, Repr

/-- Whether an edge with the given ordered `(user_id, friend_id)` pair exists,
whatever its status — the condition under which the UNIQUE constraint
rejects a new insert. -/
def hasEdge (f t : NumV) (friends : List FriendEdge) : Bool :=
  friends.any fun e => e.user_id == f && e.friend_id == t

/-- The `POST /friends/request` route: coerce ids with `Number`, then
`INSERT INTO friends (user_id, friend_id)` (status defaults to pending);
the UNIQUE constraint on the ordered pair makes the insert fail for an
existing pair, which the `catch` turns into the 400 duplicate response. -/
def createFriendRequest (fromId toId : JSValue) (friends : List FriendEdge) :
    FriendReqResult :=
  let f := toNumber fromId
  let t := toNumber toId
  if hasEdge f t friends then .duplicateErr
  else .ok (friends ++ [⟨f, t, "pending"⟩])

/-- The WHERE clause of the `GET /messages` query:
`(sender_id = $1 AND receiver_id = $2) OR (sender_id = $2 AND receiver_id = $1)`. -/
def msgMatches (myId userId : NumV) (m : MsgRow) : Bool :=
  (m.sender_id == myId && m.receiver_id == userId) ||
  (m.sender_id == userId && m.receiver_id == myId)

/-- The `GET /messages` route body: select both directions between the two
ids, `ORDER BY created_at ASC`. -/
def listMessages (myId userId : NumV) (store : List MsgRow) : List MsgRow :=
  (store.filter (msgMatches myId userId)).mergeSort
    fun m1 m2 => m1.created_at ≤ m2.created_at

/-- After binding `uid` to `sid`, looking up `uid` finds `sid`, whatever the
previous registry contents. -/
theorem lookupReg_bindReg_self (uid : NumV) (sid : SocketId) :
    ∀ reg : Registry, lookupReg uid (bindReg uid sid reg) = some sid := by
  intro reg
  induction reg with
  | nil => simp [bindReg, lookupReg]
  | cons kv rest ih =>
    obtain ⟨k, v⟩ := kv
    by_cases hk : uid = k
    · simp [bindReg, hk, lookupReg]
    · simp [bindReg, hk, lookupReg, ih]

/-- A registry entry whose socket differs from the disconnecting one is not
affected by the disconnect scan: the lookup result survives. -/
theorem lookupReg_disconnectHandler_of_ne (uid : NumV) (v sid : SocketId)
    (hv : v ≠ sid) :
    ∀ reg : Registry, lookupReg uid reg = some v →
      lookupReg uid (disconnectHandler sid reg) = some v := by
  intro reg
  induction reg with
  | nil => simp [lookupReg]
  | cons kv rest ih =>
    obtain ⟨k, w⟩ := kv
    intro hlook
    by_cases hw : w = sid
    · have hk : uid ≠ k := by
        intro hk
        rw [lookupReg, if_pos hk] at hlook
        exact hv (by injection hlook with h; rw [← h]; exact hw)
      rw [lookupReg, if_neg hk] at hlook
      rw [disconnectHandler, if_pos hw]
      exact hlook
    · rw [disconnectHandler, if_neg hw]
      by_cases hk : uid = k
      · rw [lookupReg, if_pos hk] at hlook
        rw [lookupReg, if_pos hk]
        exact hlook
      · rw [lookupReg, if_neg hk] at hlook
        rw [lookupReg, if_neg hk]
        exact ih hlook

/-- C2: if connection `c1` logs in as user `n`, then connection `c2` logs in
as the same user `n`, a subsequent disconnect of `c1` does not remove the
newer binding: `lookup n` still returns `c2`'s socket. -/
theorem disconnect_stale_keeps_newer_binding
    (reg : Registry) (n : Int) (c1 c2 : SocketId)
    (hn : n ≠ 0) (hc : c1 ≠ c2) :
    lookupReg (.int n)
      (disconnectHandler c1
        (loginHandler (.vnum n) c2 (loginHandler (.vnum n) c1 reg))) = some c2 := by
  have hfal : falsy (JSValue.vnum n) = false := by
    simp [falsy, hn]
  simp only [loginHandler, hfal, Bool.false_eq_true, if_false, toNumber]
  exact lookupReg_disconnectHandler_of_ne (.int n) c2 c1 (fun h => hc h.symm) _
    (lookupReg_bindReg_self (.int n) c2 _)

/-- C2 witness: user 7, stale connection 1, newer connection 2, empty initial
registry — after 1 disconnects, lookup of 7 still gives connection 2. -/
theorem disconnect_stale_keeps_newer_binding_witness :
    lookupReg (.int 7)
      (disconnectHandler 1
        (loginHandler (.vnum 7) 2 (loginHandler (.vnum 7) 1 []))) = some 2 :=
  disconnect_stale_keeps_newer_binding [] 7 1 2 (by decide) (by decide)

/-- C4: the disconnect scan (a total function, hence terminating) removes at
most one entry: its result is a sublist of the registry missing at most one
element. -/
theorem disconnect_removes_at_most_one (sid : SocketId) (reg : Registry) :
    List.Sublist (disconnectHandler sid reg) reg ∧
    reg.length ≤ (disconnectHandler sid reg).length + 1 := by
  induction reg with
  | nil => exact ⟨List.Sublist.refl _, by simp [disconnectHandler]⟩
  | cons kv rest ih =>
    obtain ⟨k, v⟩ := kv
    by_cases hv : v = sid
    · rw [disconnectHandler, if_pos hv]
      exact ⟨List.sublist_cons_self _ _, by simp⟩
    · rw [disconnectHandler, if_neg hv]
      exact ⟨List.Sublist.cons₂ _ ih.1, by simpa using ih.2⟩

/-- C10: a `login` event whose user id is falsy (`0`, `null`, `undefined`,
`""`) leaves the presence registry unchanged. -/
theorem login_falsy_userId_noop (userId : JSValue) (sid : SocketId)
    (reg : Registry) (h : falsy userId = true) :
    loginHandler userId sid reg = reg := by
  simp [loginHandler, h]

/-- C10 witness: user id `0` is falsy, and a login with it on socket 5 leaves
a one-entry registry untouched. -/
theorem login_falsy_userId_noop_witness :
    falsy (JSValue.vnum 0) = true ∧
      loginHandler (.vnum 0) 5 [(NumV.int 3, 4)] = [(NumV.int 3, 4)] :=
  ⟨by decide, login_falsy_userId_noop (.vnum 0) 5 [(NumV.int 3, 4)] (by decide)⟩

/-- C1: the store write is the first effect of every `send_message` dispatch
(so it precedes any live push); on success the message row is appended to
the durable table; and when the persistence call fails the dispatch fails
entirely — the table is unchanged and the trace holds only the failed
insert, no push. -/
theorem dispatch_persists_before_push
    (ok : Bool) (fromUserId toUserId : JSValue) (text : String) (now : Nat)
    (store : List MsgRow) (reg : Registry) :
    (sendMessageHandler ok fromUserId toUserId text now store reg).2.head? =
      some (.dbInsert (toNumber fromUserId) (toNumber toUserId) text ok) ∧
    (sendMessageHandler true fromUserId toUserId text now store reg).1 =
      store ++ [⟨toNumber fromUserId, toNumber toUserId, text, now⟩] ∧
    sendMessageHandler false fromUserId toUserId text now store reg =
      (store, [.dbInsert (toNumber fromUserId) (toNumber toUserId) text false]) := by
  refine ⟨?_, ?_, rfl⟩
  · cases ok
    · rfl
    · cases hl : lookupReg (toNumber toUserId) reg <;>
        simp [sendMessageHandler, hl]
  · cases hl : lookupReg (toNumber toUserId) reg <;>
      simp [sendMessageHandler, hl]

/-- C5: when the receiver id is bound to socket `sid` at dispatch time, the
live pushes of a successful dispatch are exactly one `receive_message` to
`sid` with payload `{from, text}` — one event to the bound connection and
none to any other. -/
theorem dispatch_bound_receiver_one_push
    (fromUserId toUserId : JSValue) (text : String) (now : Nat)
    (store : List MsgRow) (reg : Registry) (sid : SocketId)
    (h : lookupReg (toNumber toUserId) reg = some sid) :
    (sendMessageHandler true fromUserId toUserId text now store reg).2.filter
        Effect.isEmit =
      [.emit sid (toNumber fromUserId) text] := by
  simp [sendMessageHandler, h, Effect.isEmit]

/-- C5 witness: receiver 2 bound to socket 5; a dispatch from 1 to 2 pushes
exactly `receive_message {from: 1, text: "hi"}` to socket 5. -/
theorem dispatch_bound_receiver_one_push_witness :
    (sendMessageHandler true (.vnum 1) (.vnum 2) "hi" 0 []
        [(NumV.int 2, 5)]).2.filter Effect.isEmit =
      [.emit 5 (NumV.int 1) "hi"] :=
  dispatch_bound_receiver_one_push (.vnum 1) (.vnum 2) "hi" 0 []
    [(NumV.int 2, 5)] 5 (by decide)

/-- C6: when the receiver id is not bound at dispatch time, a successful
dispatch delivers nothing live (`delivered` observable is false) and the
persisted row nevertheless exists in the messages table afterwards. -/
theorem dispatch_unbound_receiver_persists
    (fromUserId toUserId : JSValue) (text : String) (now : Nat)
    (store : List MsgRow) (reg : Registry)
    (h : lookupReg (toNumber toUserId) reg = none) :
    deliveredFlag
        (sendMessageHandler true fromUserId toUserId text now store reg).2 =
      false ∧
    (⟨toNumber fromUserId, toNumber toUserId, text, now⟩ : MsgRow) ∈
      (sendMessageHandler true fromUserId toUserId text now store reg).1 := by
  constructor
  · simp [sendMessageHandler, h, deliveredFlag, Effect.isEmit]
  · simp [sendMessageHandler, h]

/-- C6 witness: empty registry, so receiver 2 is unbound; the dispatch from 1
delivers nothing and the row is persisted. -/
theorem dispatch_unbound_receiver_persists_witness :
    deliveredFlag (sendMessageHandler true (.vnum 1) (.vnum 2) "hi" 0 [] []).2 =
      false ∧
    (⟨NumV.int 1, NumV.int 2, "hi", 0⟩ : MsgRow) ∈
      (sendMessageHandler true (.vnum 1) (.vnum 2) "hi" 0 [] []).1 :=
  dispatch_unbound_receiver_persists (.vnum 1) (.vnum 2) "hi" 0 [] [] (by decide)

/-- C9: the message-history query is symmetric in its two ids: for every
store state, `listMessages a b` returns the same ordered sequence as
`listMessages b a`. -/
theorem listMessages_symmetric (myId userId : NumV) (store : List MsgRow) :
    listMessages myId userId store = listMessages userId myId store := by
  unfold listMessages
  have h : msgMatches myId userId = msgMatches userId myId := by
    funext m
    simp only [msgMatches]
    exact Bool.or_comm _ _
  rw [h]

/-- C3 counterexample: a successful dispatch (sender 1 on socket 9, receiver
2 bound to socket 5) persists the message yet emits nothing at all to the
sender's socket — no outcome report, so in particular no pair of booleans. -/
theorem dispatch_no_report_counterexample :
    persistedFlag (sendMessageHandler true (.vnum 1) (.vnum 2) "hi" 0 []
        [(NumV.int 2, 5)]).2 = true ∧
    emitsTo 9 (sendMessageHandler true (.vnum 1) (.vnum 2) "hi" 0 []
        [(NumV.int 2, 5)]).2 = false := by
  constructor <;> rfl

/-- C3 amended: the dispatch reports no outcome to the sender; the only
event it can emit is the `receive_message` push to the socket bound to the
receiver id, so any socket not bound to the receiver id — the sender's own
connection in particular — receives nothing. -/
theorem dispatch_reports_nothing_to_sender
    (ok : Bool) (fromUserId toUserId : JSValue) (text : String) (now : Nat)
    (store : List MsgRow) (reg : Registry) (sock : SocketId)
    (h : lookupReg (toNumber toUserId) reg ≠ some sock) :
    emitsTo sock
        (sendMessageHandler ok fromUserId toUserId text now store reg).2 =
      false := by
  cases ok
  · simp [sendMessageHandler, emitsTo]
  · cases hl : lookupReg (toNumber toUserId) reg with
    | none => simp [sendMessageHandler, hl, emitsTo]
    | some sid =>
      have hs : sid ≠ sock := fun hx => h (hx ▸ hl)
      simp [sendMessageHandler, hl, emitsTo, hs]

/-- C3 amended witness: sender socket 9 is not the binding of receiver 2
(socket 5), and indeed nothing reaches socket 9. -/
theorem dispatch_reports_nothing_to_sender_witness :
    emitsTo 9 (sendMessageHandler true (.vnum 1) (.vnum 2) "hi" 0 []
        [(NumV.int 2, 5)]).2 = false :=
  dispatch_reports_nothing_to_sender true (.vnum 1) (.vnum 2) "hi" 0 []
    [(NumV.int 2, 5)] 9 (by decide)

/-- C7 counterexample: a `send_message` with a missing sender id
(`undefined`, coerced to NaN) and empty text is not rejected: the durable
store call is made and the row is persisted — no ValidationError exists
anywhere in the handler. -/
theorem sendMessage_no_validation_counterexample :
    (sendMessageHandler true .vundef (.vnum 2) "" 0 [] []).1 =
      [⟨NumV.nan, NumV.int 2, "", 0⟩] ∧
    (sendMessageHandler true .vundef (.vnum 2) "" 0 [] []).2.head? =
      some (.dbInsert NumV.nan (NumV.int 2) "" true) := by
  constructor <;> rfl

/-- C7 amended: the handler performs no validation at all: for every payload
the store insert is the first action taken (no check guards it); empty text
is persisted unchanged, and a missing sender id reaches the store as NaN. -/
theorem sendMessage_inserts_unvalidated
    (ok : Bool) (fromUserId toUserId : JSValue) (text : String) (now : Nat)
    (store : List MsgRow) (reg : Registry) :
    (sendMessageHandler ok fromUserId toUserId text now store reg).2.head? =
      some (.dbInsert (toNumber fromUserId) (toNumber toUserId) text ok) ∧
    (sendMessageHandler true fromUserId toUserId "" now store reg).1 =
      store ++ [⟨toNumber fromUserId, toNumber toUserId, "", now⟩] ∧
    (sendMessageHandler true .vundef toUserId text now store reg).1 =
      store ++ [⟨NumV.nan, toNumber toUserId, text, now⟩] := by
  refine ⟨?_, ?_, ?_⟩
  · cases ok
    · rfl
    · cases hl : lookupReg (toNumber toUserId) reg <;>
        simp [sendMessageHandler, hl]
  · cases hl : lookupReg (toNumber toUserId) reg <;>
      simp [sendMessageHandler, hl]
  · have hundef : toNumber JSValue.vundef = NumV.nan := rfl
    cases hl : lookupReg (toNumber toUserId) reg <;>
      simp [sendMessageHandler, hl, hundef]

/-- C8 counterexample: with both pending edges 1→2 and 2→1 present — a state
the claim's hypothesis (a pending 1→2 edge exists) allows — the friend
request 2→1 fails with the duplicate error instead of succeeding. -/
theorem friendRequest_reverse_counterexample :
    createFriendRequest (.vnum 2) (.vnum 1)
        [⟨NumV.int 1, NumV.int 2, "pending"⟩,
         ⟨NumV.int 2, NumV.int 1, "pending"⟩] =
      .duplicateErr := by
  rfl

/-- C8 amended: with a pending A→B edge present, a second A→B request fails
with the duplicate error; and provided no B→A edge already exists, the B→A
request (the distinct ordered pair) succeeds, appending a pending B→A
edge. -/
theorem friendRequest_ordered_pairs_independent
    (friends : List FriendEdge) (a b : Int) (_hab : a ≠ b)
    (hfwd : FriendEdge.mk (.int a) (.int b) "pending" ∈ friends)
    (hrev : hasEdge (.int b) (.int a) friends = false) :
    createFriendRequest (.vnum a) (.vnum b) friends = .duplicateErr ∧
    createFriendRequest (.vnum b) (.vnum a) friends =
      .ok (friends ++ [⟨.int b, .int a, "pending"⟩]) := by
  constructor
  · have h : hasEdge (.int a) (.int b) friends = true := by
      unfold hasEdge
      exact List.any_eq_true.mpr ⟨_, hfwd, by simp⟩
    simp [createFriendRequest, toNumber, h]
  · simp [createFriendRequest, toNumber, hrev]

/-- C8 amended witness: only the pending 1→2 edge exists; the repeat 1→2
request fails as duplicate and the 2→1 request succeeds. -/
theorem friendRequest_ordered_pairs_independent_witness :
    createFriendRequest (.vnum 1) (.vnum 2)
        [⟨NumV.int 1, NumV.int 2, "pending"⟩] = .duplicateErr ∧
    createFriendRequest (.vnum 2) (.vnum 1)
        [⟨NumV.int 1, NumV.int 2, "pending"⟩] =
      .ok [⟨NumV.int 1, NumV.int 2, "pending"⟩, ⟨NumV.int 2, NumV.int 1, "pending"⟩] :=
  friendRequest_ordered_pairs_independent
    [⟨NumV.int 1, NumV.int 2, "pending"⟩] 1 2 (by decide)
    (by simp) (by rfl)

end Messenger
